import Mathlib

/-!
Verification development for the MetroBot music bot (`bot.py`, `player.py`).

The Python modules are shallowly embedded: the per-guild `MusicPlayer` state
(queue, current track, voice client, idle-disconnect tasks, driver task) is an
explicit record, asyncio tasks are modelled by a status list indexed by creation
order, and each operation of the source becomes a pure state transformer that
additionally reports the externally visible actions it performs (stopping the
sink, disconnecting the voice client, cancelling tasks).  External collaborators
(yt-dlp, discord voice transport, ffmpeg) enter as explicit inputs: the resolver
is a function argument returning `Except`, the downloader a function argument,
environment lookups a function `String → Option String`.
-/

/-- Status of an asyncio task: scheduled and not finished, cancelled, or done. -/
inductive TaskStatus where
  | pending
  | cancelled
  | done
deriving DecidableEq, Repr

/-- Playback state of the discord voice client: `is_playing()` is true exactly
in state `playing`, `is_paused()` exactly in state `paused`. -/
inductive PlayState where
  | idle
  | playing
  | paused
deriving DecidableEq, Repr

/-- The voice-client capability handle (external collaborator). -/
structure VoiceClient where
  connected : Bool
  playState : PlayState
  channelMembers : Nat
deriving DecidableEq, Repr

def VoiceClient.is_playing (vc : VoiceClient) : Bool :=
  vc.playState == PlayState.playing

def VoiceClient.is_paused (vc : VoiceClient) : Bool :=
  vc.playState == PlayState.paused

def VoiceClient.is_connected (vc : VoiceClient) : Bool :=
  vc.connected

/-- `voice_client.stop()`: the sink stops consuming. -/
def VoiceClient.stopSink (vc : VoiceClient) : VoiceClient :=
  { vc with playState := PlayState.idle }

/-- `voice_client.disconnect()`. -/
def VoiceClient.disconnectVC (vc : VoiceClient) : VoiceClient :=
  { vc with connected := false, playState := PlayState.idle }

/-- `discord.Member`, reduced to what the bot reads from it. -/
structure Member where
  display_name : String
deriving DecidableEq, Repr

/-- The `Track` dataclass of `player.py`. -/
structure Track where
  title : String
  url : String
  source_url : String
  duration : Nat
  requester : Member
  file_path : Option String := none
deriving DecidableEq, Repr

/-- Externally visible side effects of the player operations. -/
inductive BotAction where
  | sinkStop
  | vcDisconnect
  | cancelDriver
  | cancelIdle
deriving DecidableEq, Repr

/-- State of one `MusicPlayer`.  `tasks` lists every idle-disconnect task ever
created, indexed by creation order; `auto_disconnect_task` holds the index of
the most recently created one (`None` before the first). -/
structure PlayerState where
  guild_id : Nat
  queue : List Track
  current : Option Track
  voice_client : VoiceClient
  play_next_event : Bool
  tasks : List TaskStatus
  auto_disconnect_task : Option Nat
  driverStatus : TaskStatus
deriving DecidableEq, Repr

/-- `task.cancel()`: a scheduled task becomes cancelled; a finished or already
cancelled task is unaffected. -/
def cancelTask (l : List TaskStatus) (i : Nat) : List TaskStatus :=
  match l[i]? with
  | some TaskStatus.pending => l.set i TaskStatus.cancelled
  | _ => l

/-- The cancel half of `MusicPlayer.start_auto_disconnect`: the task list after
`if self.auto_disconnect_task and not self.auto_disconnect_task.done(): cancel`.
A recorded task is "not done" exactly when it is still scheduled. -/
def idleCancelPhase (st : PlayerState) : List TaskStatus :=
  match st.auto_disconnect_task with
  | some tid =>
      if st.tasks[tid]? = some TaskStatus.pending then cancelTask st.tasks tid
      else st.tasks
  | none => st.tasks

/-- `MusicPlayer.start_auto_disconnect`: if the recorded idle task exists and is
not done, cancel it; then create a fresh idle task and record it. -/
def start_auto_disconnect (st : PlayerState) : PlayerState :=
  { st with
      tasks := idleCancelPhase st ++ [TaskStatus.pending],
      auto_disconnect_task := some (idleCancelPhase st).length }

/-- A resolved yt-dlp info dictionary, reduced to the keys the bot reads. -/
structure YtdlInfo where
  title : String
  url : String
  webpage_url : String
  duration : Option Nat
deriving DecidableEq, Repr

/-- What `YoutubeDL.extract_info` can hand back: a single video info or a
playlist/search result carrying an `entries` list. -/
inductive YtdlResult where
  | single (info : YtdlInfo)
  | entries (es : List YtdlInfo)
deriving DecidableEq, Repr

/-- `extract_info` of `player.py`: prefix non-URLs with `ytsearch1:`, call the
extractor (passed in as `fetch`; an exception is an `Except.error`), and take
the first entry when an `entries` list is present — indexing an empty list
raises, hence the error case. -/
def extract_info (query : String) (fetch : String → Except String YtdlResult) :
    Except String YtdlInfo :=
  let inq := if query.startsWith "http" then query else "ytsearch1:" ++ query
  match fetch inq with
  | Except.error e => Except.error e
  | Except.ok (YtdlResult.single i) => Except.ok i
  | Except.ok (YtdlResult.entries es) =>
      match es with
      | [] => Except.error "list index out of range"
      | e :: _ => Except.ok e

/-- Building the `Track` inside `MusicPlayer.queue_entry`. -/
def mkTrack (info : YtdlInfo) (requester : Member) : Track :=
  { title := info.title
    url := info.url
    source_url := info.webpage_url
    duration := info.duration.getD 0
    requester := requester }

/-- `MusicPlayer.queue_entry`: resolve off-loop; on success build the track,
push it on the queue and re-arm the idle timer; a resolution failure propagates
before any state is touched. -/
def queue_entry (st : PlayerState) (fetch : String → Except String YtdlResult)
    (query : String) (requester : Member) : Except String Track × PlayerState :=
  match extract_info query fetch with
  | Except.error e => (Except.error e, st)
  | Except.ok info =>
      let track := mkTrack info requester
      let st := { st with queue := st.queue ++ [track] }
      let st := start_auto_disconnect st
      (Except.ok track, st)

/-- The ffmpeg `before_options` string of `player.py`. -/
def FFMPEG_OPTIONS : String := "-nostdin -hide_banner"

/-- Whether `needle` occurs as a contiguous substring of `hay`, on character
lists; used to state which flags an ffmpeg option string does and does not
carry. -/
def containsSub (needle hay : List Char) : Bool :=
  match hay with
  | [] => needle == []
  | c :: t => needle.isPrefixOf (c :: t) || containsSub needle t

/-- The arguments of the `discord.FFmpegPCMAudio` constructed by the driver. -/
structure FFmpegPCMAudio where
  source : String
  before_options : String
  executable : String
deriving DecidableEq, Repr

/-- One full iteration of `MusicPlayer.player_loop`, run to track completion:
dequeue (`none` when the driver would block on an empty queue), download the
track to a temp file (`download_track` passed in), build the ffmpeg source from
that file, play it, await the advance signal set by the completion callback,
clear `current`, and re-arm the idle timer.  Returns the constructed source and
the state after the iteration. -/
def player_loop_iter (st : PlayerState) (download_track : String → String)
    (ffmpeg_path : Option String) : Option (FFmpegPCMAudio × PlayerState) :=
  match st.queue with
  | [] => none
  | t :: rest =>
      let file_path := download_track t.url
      let _current : Track := { t with file_path := some file_path }
      let source : FFmpegPCMAudio :=
        { source := file_path
          before_options := FFMPEG_OPTIONS
          executable := ffmpeg_path.getD "ffmpeg" }
      let st := { st with queue := rest, current := none, play_next_event := true }
      some (source, start_auto_disconnect st)

/-- `MusicPlayer.skip`: stop the sink only when the voice client is playing. -/
def skip (st : PlayerState) : PlayerState × List BotAction :=
  if st.voice_client.is_playing then
    ({ st with voice_client := st.voice_client.stopSink }, [BotAction.sinkStop])
  else
    (st, [])

/-- The `while not self.queue.empty(): get_nowait()` drain loop of `stop`. -/
def drainQueue : List Track → List Track
  | [] => []
  | _ :: rest => drainQueue rest

/-- `MusicPlayer.stop`: drain the queue, stop the sink if playing or paused,
re-arm the idle timer. -/
def stop (st : PlayerState) : PlayerState × List BotAction :=
  let st2 := { st with queue := drainQueue st.queue }
  if st2.voice_client.is_playing || st2.voice_client.is_paused then
    (start_auto_disconnect { st2 with voice_client := st2.voice_client.stopSink },
     [BotAction.sinkStop])
  else
    (start_auto_disconnect st2, [])

/-- Result of one firing of the idle task body `_auto_disconnect` after its
`sleep(timeout)`: the resulting player state, whether the one-second settling
sleep was taken, and whether the voice client was disconnected. -/
structure IdleFire where
  st : PlayerState
  settled : Bool
  disconnected : Bool
deriving DecidableEq, Repr

/-- `MusicPlayer._auto_disconnect`, from the point its `sleep(timeout)` has
elapsed: return if no longer connected; disconnect at once when alone in the
channel; otherwise sleep one second and disconnect iff nothing is playing, the
queue is empty and `current` is `None`. -/
def auto_disconnect_fire (st : PlayerState) : IdleFire :=
  if !st.voice_client.is_connected then
    { st := st, settled := false, disconnected := false }
  else if st.voice_client.channelMembers = 1 then
    { st := { st with voice_client := st.voice_client.disconnectVC }
      settled := false, disconnected := true }
  else if !st.voice_client.is_playing && st.queue.isEmpty && st.current.isNone then
    { st := { st with voice_client := st.voice_client.disconnectVC }
      settled := true, disconnected := true }
  else
    { st := st, settled := true, disconnected := false }

/-- The `MusicManager` registry: guild id → player. -/
structure ManagerState where
  players : Nat → Option PlayerState

/-- `MusicManager.disconnect`: when a player is registered, best-effort
disconnect its voice client, cancel the driver task, cancel the idle task if
one was ever created, and delete the registry entry; otherwise do nothing. -/
def MusicManager.disconnect (m : ManagerState) (guild_id : Nat) :
    ManagerState × List BotAction :=
  match m.players guild_id with
  | none => (m, [])
  | some player =>
      let acts := [BotAction.vcDisconnect, BotAction.cancelDriver] ++
        (match player.auto_disconnect_task with
         | some _ => [BotAction.cancelIdle]
         | none => [])
      ({ players := fun g => if g = guild_id then none else m.players g }, acts)

/-- The idle task firing, seen at the registry level: it runs inside the player
it belongs to and touches nothing else — in particular it neither cancels the
driver task nor removes the registry entry. -/
def manager_idle_fire (m : ManagerState) (guild_id : Nat) : ManagerState :=
  match m.players guild_id with
  | none => m
  | some p =>
      { players := fun g =>
          if g = guild_id then some (auto_disconnect_fire p).st else m.players g }

/-- Startup events of `bot.py` in execution order. -/
inductive StartupEvent where
  | logError (msg : String)
  | startKeepalive
  | botRun (token : Option String)
deriving DecidableEq, Repr

/-- The startup sequence of `bot.py` (module body plus the main block): read
`DISCORD_TOKEN`; when it is unset or empty, log an error — and continue; start
the keep-alive thread unless disabled; call `bot.run(DISCORD_TOKEN)`. -/
def startup (env : String → Option String) : List StartupEvent :=
  let token := env "DISCORD_TOKEN"
  let falsy := token = none ∨ token = some ""
  (if falsy then [StartupEvent.logError
      "Please set DISCORD_TOKEN environment variable and restart."] else []) ++
  (if (env "ENABLE_KEEPALIVE").getD "1" = "1" then [StartupEvent.startKeepalive]
   else []) ++
  [StartupEvent.botRun token]

/-- The "Now playing" line of the `queue` command. -/
def now_playing_line (t : Track) : String :=
  "🎶 Now playing: " ++ t.title ++ " (" ++ t.requester.display_name ++ ")"

/-- One numbered upcoming-track line of the `queue` command. -/
def upcoming_line (i : Nat) (t : Track) : String :=
  toString i ++ ". " ++ t.title ++ " (" ++ t.requester.display_name ++ ")"

/-- The `lines` list built by `show_queue` in `bot.py`: the now-playing line
when `current` is set, then the first ten queued tracks numbered from 1. -/
def queue_lines (current : Option Track) (queue : List Track) : List String :=
  (match current with
   | some t => [now_playing_line t]
   | none => []) ++
  (List.enumFrom 1 (queue.take 10)).map (fun it => upcoming_line it.1 it.2)

/-- The reply of the `queue` command. -/
inductive QueueReply where
  | nothing_playing
  | queue_is_empty
  | embed (title description : String)
deriving DecidableEq, Repr

/-- `show_queue` of `bot.py`: no player registered → "Nothing is playing.";
an empty `lines` list → "Queue is empty."; otherwise an embed whose description
joins the lines with newlines. -/
def show_queue (player : Option PlayerState) (guild_name : String) : QueueReply :=
  match player with
  | none => QueueReply.nothing_playing
  | some p =>
      let lines := queue_lines p.current p.queue
      if lines = [] then QueueReply.queue_is_empty
      else QueueReply.embed ("Queue for " ++ guild_name)
        (String.intercalate "\n" lines)

/-- Number of scheduled (pending) tasks in a task list. -/
def pendingCount (l : List TaskStatus) : Nat :=
  l.countP (fun s => s == TaskStatus.pending)

/-- The idle-task invariant of a player: every scheduled idle task is the one
recorded in `auto_disconnect_task`. -/
def IdleInv (st : PlayerState) : Prop :=
  ∀ i, st.tasks[i]? = some TaskStatus.pending → st.auto_disconnect_task = some i

/-! Concrete states used by witnesses and counterexamples. -/

def sampleMember : Member := { display_name := "alice" }

def sampleTrack : Track :=
  { title := "Song A"
    url := "https://stream.example/a"
    source_url := "https://page.example/a"
    duration := 180
    requester := sampleMember }

/-- A connected, idle player for guild 7, with two other channel members. -/
def basePlayer : PlayerState :=
  { guild_id := 7
    queue := []
    current := none
    voice_client := { connected := true, playState := PlayState.idle, channelMembers := 3 }
    play_next_event := false
    tasks := []
    auto_disconnect_task := none
    driverStatus := TaskStatus.pending }

/-- `basePlayer` with one armed idle task. -/
def idlePlayer : PlayerState :=
  { basePlayer with tasks := [TaskStatus.pending], auto_disconnect_task := some 0 }

/-- A registry holding `idlePlayer` under guild 7. -/
def idleManager : ManagerState :=
  { players := fun g => if g = 7 then some idlePlayer else none }

/-- `basePlayer` with one queued track. -/
def queuedPlayer : PlayerState := { basePlayer with queue := [sampleTrack] }

/-- `basePlayer` with a current track and an empty queue. -/
def nowPlayingPlayer : PlayerState := { basePlayer with current := some sampleTrack }

/-- A player whose voice client is paused mid-track. -/
def pausedPlayer : PlayerState :=
  { basePlayer with
      current := some sampleTrack
      voice_client := { connected := true, playState := PlayState.paused, channelMembers := 3 } }

/-! Helper lemmas about the idle-task machinery. -/

theorem cancelTask_length (l : List TaskStatus) (i : Nat) :
    (cancelTask l i).length = l.length := by
  unfold cancelTask
  split <;> simp [List.length_set]

theorem idleCancelPhase_length (st : PlayerState) :
    (idleCancelPhase st).length = st.tasks.length := by
  unfold idleCancelPhase
  split
  · split
    · exact cancelTask_length _ _
    · rfl
  · rfl

theorem idleCancelPhase_no_pending (st : PlayerState) (h : IdleInv st) (i : Nat) :
    ¬ (idleCancelPhase st)[i]? = some TaskStatus.pending := by
  unfold idleCancelPhase
  split
  next tid hptr =>
    split
    next hc =>
      unfold cancelTask
      rw [hc, List.getElem?_set]
      intro hi
      by_cases hij : tid = i
      · rw [if_pos hij] at hi
        split at hi <;> simp_all
      · rw [if_neg hij] at hi
        have h2 := h i hi
        rw [hptr] at h2
        exact hij (Option.some.inj h2)
    next hc =>
      intro hi
      have h2 := h i hi
      rw [hptr] at h2
      have hti : tid = i := Option.some.inj h2
      subst hti
      exact hc hi
  next hptr =>
    intro hi
    have h2 := h i hi
    rw [hptr] at h2
    exact Option.noConfusion h2

theorem pendingCount_eq_zero (l : List TaskStatus)
    (h : ∀ i : Nat, ¬ l[i]? = some TaskStatus.pending) : pendingCount l = 0 := by
  unfold pendingCount
  rw [List.countP_eq_zero]
  intro a ha
  simp only [beq_iff_eq]
  intro hae
  subst hae
  obtain ⟨n, hn⟩ := List.mem_iff_getElem?.mp ha
  exact h n hn

theorem pendingCount_append_pending (l : List TaskStatus) :
    pendingCount (l ++ [TaskStatus.pending]) = pendingCount l + 1 := by
  unfold pendingCount
  rw [List.countP_append]
  rfl

theorem sad_auto_task (st : PlayerState) :
    (start_auto_disconnect st).auto_disconnect_task = some st.tasks.length := by
  unfold start_auto_disconnect
  simp [idleCancelPhase_length]

theorem sad_new_pending (st : PlayerState) :
    (start_auto_disconnect st).tasks[st.tasks.length]? = some TaskStatus.pending := by
  unfold start_auto_disconnect
  rw [← idleCancelPhase_length st]
  exact List.getElem?_concat_length _ _

theorem sad_IdleInv (st : PlayerState) (h : IdleInv st) :
    IdleInv (start_auto_disconnect st) := by
  intro i hi
  unfold start_auto_disconnect at hi ⊢
  rcases Nat.lt_trichotomy i (idleCancelPhase st).length with hlt | heq | hgt
  · rw [List.getElem?_append, if_pos hlt] at hi
    exact absurd hi (idleCancelPhase_no_pending st h i)
  · rw [heq]
  · have hge : (idleCancelPhase st ++ [TaskStatus.pending]).length ≤ i := by
      rw [List.length_append]
      simpa using hgt
    rw [List.getElem?_eq_none hge] at hi
    exact Option.noConfusion hi

theorem sad_pendingCount (st : PlayerState) (h : IdleInv st) :
    pendingCount (start_auto_disconnect st).tasks = 1 := by
  unfold start_auto_disconnect
  show pendingCount (idleCancelPhase st ++ [TaskStatus.pending]) = 1
  rw [pendingCount_append_pending,
      pendingCount_eq_zero _ (idleCancelPhase_no_pending st h)]

theorem sad_cancels_old (st : PlayerState) (h : IdleInv st) (i : Nat)
    (hi : st.tasks[i]? = some TaskStatus.pending) :
    (start_auto_disconnect st).tasks[i]? = some TaskStatus.cancelled := by
  have hptr := h i hi
  have hlen : i < st.tasks.length := (List.getElem?_eq_some.mp hi).1
  unfold start_auto_disconnect
  show (idleCancelPhase st ++ [TaskStatus.pending])[i]? = some TaskStatus.cancelled
  rw [List.getElem?_append, if_pos (by rw [idleCancelPhase_length]; exact hlen)]
  unfold idleCancelPhase
  rw [hptr]
  dsimp only
  rw [if_pos hi]
  unfold cancelTask
  rw [hi, List.getElem?_set]
  simp [hlen]

theorem pendingCount_le_one_of_unique (l : List TaskStatus)
    (h : ∀ i j : Nat, l[i]? = some TaskStatus.pending →
      l[j]? = some TaskStatus.pending → i = j) :
    pendingCount l ≤ 1 := by
  induction l with
  | nil => simp [pendingCount]
  | cons a t ih =>
      unfold pendingCount
      rw [List.countP_cons]
      by_cases ha : a = TaskStatus.pending
      · subst ha
        have ht : pendingCount t = 0 := by
          apply pendingCount_eq_zero
          intro i hi
          have h0 : (TaskStatus.pending :: t)[0]? = some TaskStatus.pending :=
            List.getElem?_cons_zero
          have hsi : (TaskStatus.pending :: t)[i + 1]? = some TaskStatus.pending := by
            rw [List.getElem?_cons_succ]; exact hi
          exact Nat.noConfusion (h 0 (i + 1) h0 hsi)
        unfold pendingCount at ht
        rw [ht]
        simp
      · have ht : List.countP (fun s => s == TaskStatus.pending) t ≤ 1 := by
          have := ih (fun i j hi hj => by
            have := h (i + 1) (j + 1)
              (by rw [List.getElem?_cons_succ]; exact hi)
              (by rw [List.getElem?_cons_succ]; exact hj)
            omega)
          unfold pendingCount at this
          exact this
        have hpa : (a == TaskStatus.pending) = false := by
          simp [ha]
        rw [hpa]
        simpa using ht

theorem drainQueue_eq_nil (q : List Track) : drainQueue q = [] := by
  induction q with
  | nil => rfl
  | cons a t ih => simpa [drainQueue] using ih

theorem disconnect_removes (m : ManagerState) (gid : Nat) :
    (MusicManager.disconnect m gid).1.players gid = none := by
  unfold MusicManager.disconnect
  cases hm : m.players gid with
  | none => simpa using hm
  | some p => simp

theorem disconnect_absent (m : ManagerState) (gid : Nat)
    (h : m.players gid = none) : MusicManager.disconnect m gid = (m, []) := by
  unfold MusicManager.disconnect
  rw [h]

/-- C3: with `DISCORD_TOKEN` unset, `bot.py` logs "Please set DISCORD_TOKEN
environment variable and restart." but startup proceeds past the check: the
keep-alive thread is started and `bot.run` is still called, handing it the
absent token.  The claimed abort does not happen in the repository's code. -/
theorem startup_missing_token_proceeds :
    startup (fun _ => none) =
      [StartupEvent.logError
        "Please set DISCORD_TOKEN environment variable and restart.",
       StartupEvent.startKeepalive, StartupEvent.botRun none] := by
  rfl

/-- C4: whenever media resolution fails — the extractor raises or returns an
empty `entries` list, i.e. `extract_info` yields an error — `queue_entry`
returns that error to the caller and the player state is exactly unchanged: the
queue is untouched and no new idle task is armed. -/
theorem queue_entry_failure_frame (st : PlayerState)
    (fetch : String → Except String YtdlResult) (query : String)
    (requester : Member) (e : String)
    (h : extract_info query fetch = Except.error e) :
    queue_entry st fetch query requester = (Except.error e, st) := by
  unfold queue_entry
  rw [h]

theorem queue_entry_failure_frame_witness :
    extract_info "metro song" (fun _ => Except.ok (YtdlResult.entries [])) =
      Except.error "list index out of range" ∧
    queue_entry queuedPlayer (fun _ => Except.ok (YtdlResult.entries []))
        "metro song" sampleMember =
      (Except.error "list index out of range", queuedPlayer) :=
  ⟨rfl, queue_entry_failure_frame _ _ _ _ _ rfl⟩

/-- C5: after `stop` the queue is empty; the sink-stop action is issued exactly
when the voice client was playing or paused; and a fresh idle task — one that
did not exist before the call — is armed and recorded. -/
theorem stop_spec (st : PlayerState) :
    (stop st).1.queue = [] ∧
    (BotAction.sinkStop ∈ (stop st).2 ↔
      (st.voice_client.is_playing = true ∨ st.voice_client.is_paused = true)) ∧
    (stop st).1.auto_disconnect_task = some st.tasks.length ∧
    (stop st).1.tasks[st.tasks.length]? = some TaskStatus.pending ∧
    st.tasks[st.tasks.length]? = none := by
  refine ⟨?_, ?_, ?_, ?_, List.getElem?_eq_none (Nat.le_refl _)⟩
  · unfold stop
    dsimp only
    split <;> exact drainQueue_eq_nil st.queue
  · unfold stop
    dsimp only
    split
    next hcond =>
      rw [Bool.or_eq_true] at hcond
      simp only [List.mem_singleton]
      exact ⟨fun _ => hcond, fun _ => trivial⟩
    next hcond =>
      rw [Bool.or_eq_true] at hcond
      constructor
      · intro hmem
        exact absurd hmem (List.not_mem_nil _)
      · intro hor
        exact absurd hor hcond
  · unfold stop
    dsimp only
    split <;> exact sad_auto_task _
  · unfold stop
    dsimp only
    split <;> exact sad_new_pending _

/-- C7: `MusicManager.disconnect` is idempotent — the first call removes the
registry entry, so a second call finds nothing, performs no action, and leaves
the registry exactly as the single call left it. -/
theorem disconnect_idempotent (m : ManagerState) (gid : Nat) :
    MusicManager.disconnect (MusicManager.disconnect m gid).1 gid =
      ((MusicManager.disconnect m gid).1, ([] : List BotAction)) :=
  disconnect_absent _ gid (disconnect_removes m gid)

/-- C10: when the voice client is paused, `MusicPlayer.skip` does nothing:
`is_playing()` is false while paused, so the sink is not stopped, no action is
emitted, and the whole player state — `current`, queue, advance signal, idle
tasks — is returned unchanged.  A paused track cannot be skipped. -/
theorem skip_paused_noop (st : PlayerState)
    (h : st.voice_client.playState = PlayState.paused) :
    skip st = (st, []) := by
  unfold skip
  have hp : st.voice_client.is_playing = false := by
    unfold VoiceClient.is_playing
    rw [h]
    rfl
  simp [hp]

theorem skip_paused_noop_witness :
    pausedPlayer.voice_client.playState = PlayState.paused ∧
    skip pausedPlayer = (pausedPlayer, []) :=
  ⟨rfl, skip_paused_noop pausedPlayer rfl⟩

/-- C6: once the idle timer's sleep has elapsed with the voice client still
connected, `_auto_disconnect` disconnects immediately — skipping the settling
sleep — when the channel has exactly one member; otherwise it takes the
one-second settling sleep and then disconnects exactly when nothing is playing,
the queue is empty and `current` is `None`. -/
theorem auto_disconnect_fire_guards (st : PlayerState)
    (hconn : st.voice_client.connected = true) :
    (st.voice_client.channelMembers = 1 →
      (auto_disconnect_fire st).disconnected = true ∧
      (auto_disconnect_fire st).settled = false) ∧
    (st.voice_client.channelMembers ≠ 1 →
      (auto_disconnect_fire st).settled = true ∧
      ((auto_disconnect_fire st).disconnected = true ↔
        (st.voice_client.is_playing = false ∧ st.queue = [] ∧
          st.current = none))) := by
  have hc : st.voice_client.is_connected = true := hconn
  refine ⟨fun hm => ?_, fun hm => ?_⟩
  · constructor <;> simp [auto_disconnect_fire, hc, hm]
  · by_cases hcond :
      (!st.voice_client.is_playing && st.queue.isEmpty && st.current.isNone) = true
    · have hrhs : st.voice_client.is_playing = false ∧ st.queue = [] ∧
          st.current = none := by
        have h3 := hcond
        simp only [Bool.and_eq_true, Bool.not_eq_true', List.isEmpty_iff,
          Option.isNone_iff_eq_none] at h3
        exact ⟨h3.1.1, h3.1.2, h3.2⟩
      constructor
      · simp [auto_disconnect_fire, hc, hm, hcond]
      · simp [auto_disconnect_fire, hc, hm, hcond, hrhs.1, hrhs.2.1, hrhs.2.2]
    · have hrhs : ¬(st.voice_client.is_playing = false ∧ st.queue = [] ∧
          st.current = none) := by
        intro hand
        exact hcond (by simp [hand.1, hand.2.1, hand.2.2])
      constructor
      · simp [auto_disconnect_fire, hc, hm, hcond]
      · simp only [auto_disconnect_fire, hc, Bool.not_true, hm, hcond]
        simp [hrhs]

theorem auto_disconnect_fire_guards_witness :
    basePlayer.voice_client.connected = true ∧
    basePlayer.voice_client.channelMembers ≠ 1 ∧
    (auto_disconnect_fire basePlayer).settled = true ∧
    (auto_disconnect_fire basePlayer).disconnected = true := by
  have h := (auto_disconnect_fire_guards basePlayer rfl).2 (by decide)
  exact ⟨rfl, by decide, h.1, h.2.mpr (by decide)⟩

/-- C2 counterexample: the driver dequeues `sampleTrack` and constructs the
audio source for the downloaded temp file, not for the track's stream URL, and
its `before_options` is exactly `-nostdin -hide_banner`: none of the reconnect
flags, no 5 s reconnect backoff, and no audio-only flag are passed. -/
theorem driver_stream_options_cex :
    (player_loop_iter queuedPlayer (fun _ => "/tmp/abc123.webm") none).map
        (fun out => out.1) =
      some { source := "/tmp/abc123.webm",
             before_options := "-nostdin -hide_banner", executable := "ffmpeg" } ∧
    sampleTrack.url = "https://stream.example/a" ∧
    "/tmp/abc123.webm" ≠ sampleTrack.url ∧
    containsSub "-nostdin".data FFMPEG_OPTIONS.data = true ∧
    containsSub "-hide_banner".data FFMPEG_OPTIONS.data = true ∧
    containsSub "reconnect".data FFMPEG_OPTIONS.data = false ∧
    containsSub "-vn".data FFMPEG_OPTIONS.data = false := by
  exact ⟨rfl, rfl, by decide, by decide, by decide, by decide, by decide⟩

/-- C2 (amended): for every track the driver dequeues, the track is first fully
downloaded to a local temp file and the audio source is constructed for that
file — not for the stream URL — with `before_options` exactly
`-nostdin -hide_banner` (no stdin, suppress banner; no reconnect or audio-only
options) and the executable taken from `FFMPEG_PATH`, defaulting to `ffmpeg`. -/
theorem driver_downloads_source (st : PlayerState) (dl : String → String)
    (fp : Option String) (t : Track) (rest : List Track)
    (hq : st.queue = t :: rest) :
    (player_loop_iter st dl fp).map (fun out => out.1) =
      some { source := dl t.url, before_options := "-nostdin -hide_banner",
             executable := fp.getD "ffmpeg" } := by
  unfold player_loop_iter
  rw [hq]
  rfl

theorem driver_downloads_source_witness :
    queuedPlayer.queue = [sampleTrack] ∧
    (player_loop_iter queuedPlayer (fun u => "/tmp/" ++ u) none).map
        (fun out => out.1) =
      some { source := "/tmp/" ++ sampleTrack.url,
             before_options := "-nostdin -hide_banner", executable := "ffmpeg" } :=
  ⟨rfl, driver_downloads_source queuedPlayer (fun u => "/tmp/" ++ u) none
    sampleTrack [] rfl⟩

/-- C9: under the invariant that every scheduled idle task is the recorded
one, at most one idle task is scheduled; `start_auto_disconnect` (the re-arm)
cancels the previously scheduled task, leaves exactly one scheduled task — the
newly created, latest one — and re-establishes the invariant; and the invariant
is preserved by every operation that re-arms: enqueue (`queue_entry`), track
completion (`player_loop_iter`) and explicit `stop`, as well as by `skip`. -/
theorem idle_task_at_most_one (st : PlayerState) (h : IdleInv st) :
    pendingCount st.tasks ≤ 1 ∧
    IdleInv (start_auto_disconnect st) ∧
    pendingCount (start_auto_disconnect st).tasks = 1 ∧
    (∀ i : Nat, st.tasks[i]? = some TaskStatus.pending →
      (start_auto_disconnect st).tasks[i]? = some TaskStatus.cancelled) ∧
    (start_auto_disconnect st).auto_disconnect_task = some st.tasks.length ∧
    IdleInv (stop st).1 ∧
    (∀ fetch query requester,
      IdleInv (queue_entry st fetch query requester).2) ∧
    (∀ dl fp out, player_loop_iter st dl fp = some out → IdleInv out.2) ∧
    IdleInv (skip st).1 := by
  refine ⟨?_, sad_IdleInv st h, sad_pendingCount st h, sad_cancels_old st h,
    sad_auto_task st, ?_, ?_, ?_, ?_⟩
  · exact pendingCount_le_one_of_unique st.tasks (fun i j hi hj => by
      have h1 := h i hi
      have h2 := h j hj
      rw [h1] at h2
      exact Option.some.inj h2)
  · unfold stop
    dsimp only
    split
    · exact sad_IdleInv _ h
    · exact sad_IdleInv _ h
  · intro fetch query requester
    unfold queue_entry
    rcases hres : extract_info query fetch with e | info
    · exact h
    · exact sad_IdleInv _ h
  · intro dl fp out hout
    unfold player_loop_iter at hout
    rcases hq : st.queue with _ | ⟨t, rest⟩
    · rw [hq] at hout
      exact Option.noConfusion hout
    · rw [hq] at hout
      dsimp only at hout
      cases hout
      exact sad_IdleInv _ h
  · unfold skip
    split
    · exact h
    · exact h

theorem idle_task_at_most_one_witness :
    IdleInv idlePlayer ∧
    pendingCount idlePlayer.tasks ≤ 1 ∧
    pendingCount (start_auto_disconnect idlePlayer).tasks = 1 ∧
    (start_auto_disconnect idlePlayer).tasks[0]? = some TaskStatus.cancelled := by
  have hinv : IdleInv idlePlayer := by
    intro i hi
    match i with
    | 0 => rfl
    | n + 1 => exact Option.noConfusion hi
  have h := idle_task_at_most_one idlePlayer hinv
  exact ⟨hinv, h.1, h.2.2.1, h.2.2.2.1 0 rfl⟩

/-- C8: whenever `current` is set, the `queue` command's line list starts with
the now-playing line — the text "Now playing: <title> (<requester>)" behind a
music-note prefix — followed by at most ten upcoming tracks taken from the
front of the queue and numbered from 1 in queue order; with an active current
and an empty queue the reply embed shows only the now-playing line. -/
theorem show_queue_format (p : PlayerState) (t : Track) (g : String)
    (h : p.current = some t) :
    (queue_lines p.current p.queue).head? = some (now_playing_line t) ∧
    (queue_lines p.current p.queue).length = 1 + min 10 p.queue.length ∧
    (∀ i : Nat, ∀ tr : Track, i < 10 → p.queue[i]? = some tr →
      (queue_lines p.current p.queue)[i + 1]? =
        some (upcoming_line (i + 1) tr)) ∧
    now_playing_line t =
      "🎶 " ++ ("Now playing: " ++ t.title ++ " (" ++
        t.requester.display_name ++ ")") ∧
    (p.queue = [] →
      show_queue (some p) g =
        QueueReply.embed ("Queue for " ++ g) (now_playing_line t)) := by
  have hl : queue_lines p.current p.queue =
      now_playing_line t ::
        (List.enumFrom 1 (p.queue.take 10)).map
          (fun it => upcoming_line it.1 it.2) := by
    unfold queue_lines
    rw [h]
    rfl
  refine ⟨?_, ?_, ?_, rfl, ?_⟩
  · rw [hl]
    rfl
  · rw [hl]
    simp only [List.length_cons, List.length_map, List.enumFrom_length,
      List.length_take]
    omega
  · intro i tr hi hq
    rw [hl, List.getElem?_cons_succ, List.getElem?_map, List.getElem?_enumFrom,
      List.getElem?_take, if_pos hi, hq]
    rw [Nat.add_comm 1 i]
    rfl
  · intro hq
    have hl2 : queue_lines p.current p.queue = [now_playing_line t] := by
      rw [hl, hq]
      rfl
    unfold show_queue
    dsimp only
    rw [hl2, if_neg (by simp)]
    rfl

theorem show_queue_format_witness :
    nowPlayingPlayer.current = some sampleTrack ∧
    nowPlayingPlayer.queue = [] ∧
    show_queue (some nowPlayingPlayer) "Metro" =
      QueueReply.embed ("Queue for " ++ "Metro") (now_playing_line sampleTrack) :=
  ⟨rfl, rfl,
    (show_queue_format nowPlayingPlayer sampleTrack "Metro" rfl).2.2.2.2 rfl⟩

/-- C1 (amended): when the idle timer fires while the voice client is still
connected and a guard condition holds — the bot is alone in the channel, or
nothing is playing with an empty queue and no current track — only the voice
client is disconnected: the player's registry entry remains in place with its
driver task untouched, and other guilds are unaffected.  The full teardown the
claim describes — voice disconnect, driver and idle task cancellation, registry
removal — is performed only by `MusicManager.disconnect`, i.e. explicit leave. -/
theorem idle_fire_partial_teardown (m : ManagerState) (gid : Nat)
    (p : PlayerState) (hp : m.players gid = some p)
    (hconn : p.voice_client.connected = true)
    (hguard : p.voice_client.channelMembers = 1 ∨
      (p.voice_client.is_playing = false ∧ p.queue = [] ∧ p.current = none)) :
    (manager_idle_fire m gid).players gid =
      some { p with voice_client := p.voice_client.disconnectVC } ∧
    (∀ g : Nat, g ≠ gid → (manager_idle_fire m gid).players g = m.players g) ∧
    (MusicManager.disconnect m gid).1.players gid = none ∧
    BotAction.cancelDriver ∈ (MusicManager.disconnect m gid).2 := by
  have hc : p.voice_client.is_connected = true := hconn
  have hfire : (auto_disconnect_fire p).st =
      { p with voice_client := p.voice_client.disconnectVC } := by
    unfold auto_disconnect_fire
    rw [hc]
    simp only [Bool.not_true]
    rw [if_neg (by simp)]
    rcases hguard with h1 | ⟨h1, h2, h3⟩
    · rw [if_pos h1]
    · by_cases hm1 : p.voice_client.channelMembers = 1
      · rw [if_pos hm1]
      · rw [if_neg hm1]
        have hcond : (!p.voice_client.is_playing && p.queue.isEmpty &&
            p.current.isNone) = true := by
          simp [h1, h2, h3]
        rw [if_pos hcond]
  refine ⟨?_, ?_, disconnect_removes m gid, ?_⟩
  · unfold manager_idle_fire
    rw [hp]
    dsimp only
    rw [if_pos rfl, hfire]
  · intro g hg
    unfold manager_idle_fire
    rw [hp]
    dsimp only
    rw [if_neg hg]
  · unfold MusicManager.disconnect
    rw [hp]
    dsimp only
    simp

theorem idle_fire_partial_teardown_witness :
    idleManager.players 7 = some idlePlayer ∧
    idlePlayer.voice_client.connected = true ∧
    (idlePlayer.voice_client.is_playing = false ∧ idlePlayer.queue = [] ∧
      idlePlayer.current = none) ∧
    (manager_idle_fire idleManager 7).players 7 =
      some { idlePlayer with
              voice_client := idlePlayer.voice_client.disconnectVC } ∧
    (MusicManager.disconnect idleManager 7).1.players 7 = none := by
  have h := idle_fire_partial_teardown idleManager 7 idlePlayer rfl rfl
    (Or.inr ⟨rfl, rfl, rfl⟩)
  exact ⟨rfl, rfl, ⟨rfl, rfl, rfl⟩, h.1, h.2.2.1⟩

/-- C1 counterexample: with `idlePlayer` registered for guild 7 — connected,
idle, empty queue, three channel members, so the guard conditions hold — the
idle timer fires and disconnects the voice client, yet the registry entry for
guild 7 is still present and its driver task is still scheduled, not
cancelled.  The claimed teardown (registry removal, driver cancellation) does
not happen on idle-timer firing. -/
theorem idle_fire_full_teardown_cex :
    ((manager_idle_fire idleManager 7).players 7).isSome = true ∧
    ((manager_idle_fire idleManager 7).players 7).map PlayerState.driverStatus =
      some TaskStatus.pending ∧
    ((manager_idle_fire idleManager 7).players 7).map
        (fun q => q.voice_client.connected) = some false :=
  ⟨rfl, rfl, rfl⟩
